import Mathlib

/-!
Shallow embedding of the Mergington High School activities API
(`src/app.py`): an in-memory activity store, an admin session table,
bearer-token validation, and the login/logout/signup/unregister
endpoints, together with proofs of the specified properties.

Python dictionaries are modelled as association lists with dictionary
update/lookup/pop semantics; Python strings are Lean `String`s, with the
header-parsing primitives (`lower`, `startswith`, `split(" ", 1)[1]`,
`strip`) embedded over the underlying character lists.
-/

set_option maxHeartbeats 1000000

namespace Mergington

/-! ### Python dictionary operations on association lists -/

/-- Dictionary lookup `d[k]` / `d.get(k)`: the value at the first matching key. -/
def dictGet? {α : Type} : List (String × α) → String → Option α
  | [], _ => none
  | p :: d, k => if p.1 == k then some p.2 else dictGet? d k

/-- Dictionary membership `k in d`. -/
def dictMem {α : Type} (d : List (String × α)) (k : String) : Bool :=
  (dictGet? d k).isSome

/-- Dictionary assignment `d[k] = v`: overwrite the entry if the key is
present, otherwise add it at the end (insertion order, as in Python). -/
def dictSet {α : Type} : List (String × α) → String → α → List (String × α)
  | [], k, v => [(k, v)]
  | p :: d, k, v => if p.1 == k then (k, v) :: d else p :: dictSet d k v

/-- Dictionary removal `d.pop(k, None)`: remove the entry at the key if
present, a no-op otherwise. -/
def dictPop {α : Type} : List (String × α) → String → List (String × α)
  | [], _ => []
  | p :: d, k => if p.1 == k then d else p :: dictPop d k

/-! ### Python string primitives used by the header parsing -/

/-- Python `s.lower()` (ASCII letters, which is all the code compares). -/
def pyLower (s : String) : String := ⟨s.data.map Char.toLower⟩

/-- Python `s.startswith(pre)`. -/
def pyStartsWith (s pre : String) : Bool := pre.data.isPrefixOf s.data

/-- Python `s.split(" ", 1)[1]` on the character list: everything after the
first space (empty when there is no space, which the callers' guards make
unreachable). -/
def afterFirstSpace : List Char → List Char
  | [] => []
  | c :: rest => if c = ' ' then rest else afterFirstSpace rest

/-- Python `s.strip()` on the character list: drop surrounding whitespace. -/
def pyStrip (l : List Char) : List Char :=
  ((l.dropWhile Char.isWhitespace).reverse.dropWhile Char.isWhitespace).reverse

/-- The token a header yields: `authorization.split(" ", 1)[1].strip()`. -/
def extractToken (s : String) : String := ⟨pyStrip (afterFirstSpace s.data)⟩

/-! ### Data model -/

/-- One activity record of the in-memory activity database. -/
structure Activity where
  description : String
  schedule : String
  max_participants : Nat
  participants : List String
  deriving Repr, DecidableEq

/-- The activity database: activity name → record, a Python dict. -/
abbrev Store := List (String × Activity)

/-- The admin session table `_sessions`: token → username, a Python dict. -/
abbrev Sessions := List (String × String)

/-- One teacher credential from `teachers.json`. -/
structure Credential where
  username : String
  password : String
  deriving Repr, DecidableEq

/-- The seeded initial activity database (`activities` in `src/app.py`). -/
def activities : Store := [
  ("Chess Club",
   { description := "Learn strategies and compete in chess tournaments",
     schedule := "Fridays, 3:30 PM - 5:00 PM",
     max_participants := 12,
     participants := ["michael@mergington.edu", "daniel@mergington.edu"] }),
  ("Programming Class",
   { description := "Learn programming fundamentals and build software projects",
     schedule := "Tuesdays and Thursdays, 3:30 PM - 4:30 PM",
     max_participants := 20,
     participants := ["emma@mergington.edu", "sophia@mergington.edu"] }),
  ("Gym Class",
   { description := "Physical education and sports activities",
     schedule := "Mondays, Wednesdays, Fridays, 2:00 PM - 3:00 PM",
     max_participants := 30,
     participants := ["john@mergington.edu", "olivia@mergington.edu"] }),
  ("Soccer Team",
   { description := "Join the school soccer team and compete in matches",
     schedule := "Tuesdays and Thursdays, 4:00 PM - 5:30 PM",
     max_participants := 22,
     participants := ["liam@mergington.edu", "noah@mergington.edu"] }),
  ("Basketball Team",
   { description := "Practice and play basketball with the school team",
     schedule := "Wednesdays and Fridays, 3:30 PM - 5:00 PM",
     max_participants := 15,
     participants := ["ava@mergington.edu", "mia@mergington.edu"] }),
  ("Art Club",
   { description := "Explore your creativity through painting and drawing",
     schedule := "Thursdays, 3:30 PM - 5:00 PM",
     max_participants := 15,
     participants := ["amelia@mergington.edu", "harper@mergington.edu"] }),
  ("Drama Club",
   { description := "Act, direct, and produce plays and performances",
     schedule := "Mondays and Wednesdays, 4:00 PM - 5:30 PM",
     max_participants := 20,
     participants := ["ella@mergington.edu", "scarlett@mergington.edu"] }),
  ("Math Club",
   { description := "Solve challenging problems and participate in math competitions",
     schedule := "Tuesdays, 3:30 PM - 4:30 PM",
     max_participants := 10,
     participants := ["james@mergington.edu", "benjamin@mergington.edu"] }),
  ("Debate Team",
   { description := "Develop public speaking and argumentation skills",
     schedule := "Fridays, 4:00 PM - 5:30 PM",
     max_participants := 12,
     participants := ["charlotte@mergington.edu", "henry@mergington.edu"] })]

/-! ### Session manager (`_check_admin_token`, `_create_session`, `_destroy_session`) -/

/-- `_check_admin_token(authorization)`: header must be present and non-empty
(`if not authorization`), must satisfy
`authorization.lower().startswith("bearer ")`, and the token
`authorization.split(" ", 1)[1].strip()` must be a key of `_sessions`. -/
def check_admin_token (sessions : Sessions) (authorization : Option String) : Bool :=
  match authorization with
  | none => false
  | some a =>
    if a.data.isEmpty then false
    else if ¬ pyStartsWith (pyLower a) "bearer " then false
    else dictMem sessions (extractToken a)

/-- `_create_session(username)`: the fresh token (`uuid.uuid4().hex` in the
source, here a parameter) is mapped to the username and returned. -/
def create_session (sessions : Sessions) (username freshToken : String) :
    String × Sessions :=
  (freshToken, dictSet sessions freshToken username)

/-- `_destroy_session(token)`: `_sessions.pop(token, None)`. -/
def destroy_session (sessions : Sessions) (token : String) : Sessions :=
  dictPop sessions token

/-! ### API layer -/

/-- Outcome of an endpoint: a success payload or an HTTP error status with
its detail message. -/
inductive ApiResult where
  | ok : String → ApiResult
  | error : Nat → String → ApiResult
  deriving Repr, DecidableEq

/-- `POST /admin/login`: linear scan of the teacher list; on the first entry
matching both fields, mint a session for the requested username and return
the token; otherwise 401. -/
def admin_login (teachers : List Credential) (sessions : Sessions)
    (username password freshToken : String) : ApiResult × Sessions :=
  match teachers.find? (fun t => t.username == username && t.password == password) with
  | some _ =>
      let r := create_session sessions username freshToken
      (.ok r.1, r.2)
  | none => (.error 401 "Invalid username or password", sessions)

/-- `POST /admin/logout`: 400 unless the header is present, non-empty and
starts (case-insensitively) with the bearer scheme; otherwise destroy the
extracted token's session and report success. -/
def admin_logout (sessions : Sessions) (authorization : Option String) :
    ApiResult × Sessions :=
  match authorization with
  | none => (.error 400 "Missing or invalid Authorization header", sessions)
  | some a =>
    if a.data.isEmpty || ¬ pyStartsWith (pyLower a) "bearer " then
      (.error 400 "Missing or invalid Authorization header", sessions)
    else
      (.ok "Logged out", destroy_session sessions (extractToken a))

/-- `POST /activities/{activity_name}/signup`: 404 if the activity is absent,
then 403 if the token is invalid, then 400 if the email is already a
participant, else append the email to the participant list. -/
def signup_for_activity (store : Store) (sessions : Sessions)
    (activity_name email : String) (authorization : Option String) :
    ApiResult × Store :=
  match dictGet? store activity_name with
  | none => (.error 404 "Activity not found", store)
  | some activity =>
    if ¬ check_admin_token sessions authorization then
      (.error 403 "Admin credentials required to sign up students", store)
    else if email ∈ activity.participants then
      (.error 400 "Student is already signed up", store)
    else
      (.ok ("Signed up " ++ email ++ " for " ++ activity_name),
       dictSet store activity_name
         { activity with participants := activity.participants ++ [email] })

/-- `DELETE /activities/{activity_name}/unregister`: 404 if the activity is
absent, then 403 if the token is invalid, then 400 if the email is not a
participant, else remove the first matching entry (`list.remove`). -/
def unregister_from_activity (store : Store) (sessions : Sessions)
    (activity_name email : String) (authorization : Option String) :
    ApiResult × Store :=
  match dictGet? store activity_name with
  | none => (.error 404 "Activity not found", store)
  | some activity =>
    if ¬ check_admin_token sessions authorization then
      (.error 403 "Admin credentials required to unregister students", store)
    else if ¬ email ∈ activity.participants then
      (.error 400 "Student is not signed up for this activity", store)
    else
      (.ok ("Unregistered " ++ email ++ " from " ++ activity_name),
       dictSet store activity_name
         { activity with participants := activity.participants.erase email })

/-! ### Reachable roster states -/

/-- A roster mutation: one signup or unregister request, with whatever
authorization header it carried. -/
inductive Op where
  | signup (activity_name email : String) (authorization : Option String)
  | unregister (activity_name email : String) (authorization : Option String)

/-- The store after executing one request against the given session table. -/
def applyOp (sessions : Sessions) (store : Store) : Op → Store
  | .signup n e a => (signup_for_activity store sessions n e a).2
  | .unregister n e a => (unregister_from_activity store sessions n e a).2

/-- The store after a sequence of sequentially executed requests. -/
def applyOps (sessions : Sessions) (ops : List Op) (store : Store) : Store :=
  ops.foldl (applyOp sessions) store

/-- Invariant: no duplicate email in any activity's participant list. -/
def NodupStore (store : Store) : Prop :=
  ∀ p ∈ store, p.2.participants.Nodup

instance (s : Store) : Decidable (NodupStore s) :=
  inferInstanceAs (Decidable (∀ p ∈ s, p.2.participants.Nodup))

/-! ### Dictionary lemmas -/

theorem dictGet?_dictSet_self {α : Type} (d : List (String × α)) (k : String) (v : α) :
    dictGet? (dictSet d k v) k = some v := by
  induction d with
  | nil => simp [dictSet, dictGet?]
  | cons p d ih =>
      by_cases h : p.1 = k
      · simp [dictSet, dictGet?, h]
      · simp [dictSet, dictGet?, h, ih]

theorem dictGet?_eq_none_of_not_key {α : Type} (d : List (String × α)) (k : String)
    (h : k ∉ d.map Prod.fst) : dictGet? d k = none := by
  induction d with
  | nil => rfl
  | cons p d ih =>
      simp only [List.map_cons, List.mem_cons, not_or] at h
      rw [dictGet?, if_neg (by simpa using fun e : p.1 = k => h.1 e.symm)]
      exact ih h.2

theorem dictGet?_dictPop_self {α : Type} (d : List (String × α)) (k : String)
    (hnd : (d.map Prod.fst).Nodup) : dictGet? (dictPop d k) k = none := by
  induction d with
  | nil => simp [dictPop, dictGet?]
  | cons p d ih =>
      simp only [List.map_cons, List.nodup_cons] at hnd
      by_cases h : p.1 = k
      · rw [dictPop, if_pos (by simp [h])]
        exact dictGet?_eq_none_of_not_key d k (h ▸ hnd.1)
      · rw [dictPop, if_neg (by simp [h]), dictGet?, if_neg (by simp [h])]
        exact ih hnd.2

theorem dictPop_of_get_none {α : Type} (d : List (String × α)) (k : String)
    (h : dictGet? d k = none) : dictPop d k = d := by
  induction d with
  | nil => rfl
  | cons p d ih =>
      by_cases hp : p.1 = k
      · rw [dictGet?, if_pos (by simp [hp])] at h
        exact absurd h (by simp)
      · rw [dictGet?, if_neg (by simp [hp])] at h
        rw [dictPop, if_neg (by simp [hp]), ih h]

theorem mem_of_dictGet?_eq_some {α : Type} (d : List (String × α)) (k : String) (v : α)
    (h : dictGet? d k = some v) : (k, v) ∈ d := by
  induction d with
  | nil => exact absurd h (by simp [dictGet?])
  | cons p d ih =>
      by_cases hp : p.1 = k
      · rw [dictGet?, if_pos (by simp [hp])] at h
        have hv : p.2 = v := by simpa using h
        cases p
        simp_all
      · rw [dictGet?, if_neg (by simp [hp])] at h
        exact List.mem_cons_of_mem _ (ih h)

/-! ### Header-parsing lemmas -/

theorem isPrefixOf_self_append {α : Type} [BEq α] [LawfulBEq α] (l t : List α) :
    l.isPrefixOf (l ++ t) = true := by
  induction l with
  | nil => simp [List.isPrefixOf]
  | cons c l ih => simp [List.isPrefixOf, ih]

theorem data_bearer : "Bearer ".data = ['B', 'e', 'a', 'r', 'e', 'r', ' '] := rfl

theorem data_bearer_lower : "bearer ".data = ['b', 'e', 'a', 'r', 'e', 'r', ' '] := rfl

theorem afterFirstSpace_bearer (T : List Char) :
    afterFirstSpace ("Bearer ".data ++ T) = T := by
  rw [data_bearer]
  simp [afterFirstSpace]

theorem pyStartsWith_lower_bearer_append (T : String) :
    pyStartsWith (pyLower ("Bearer " ++ T)) "bearer " = true := by
  show ("bearer ".data).isPrefixOf (("Bearer " ++ T).data.map Char.toLower) = true
  rw [String.data_append, List.map_append]
  have h : "Bearer ".data.map Char.toLower = "bearer ".data := by decide
  rw [h]
  exact isPrefixOf_self_append _ _

theorem toLower_ite (c : Char) :
    c.toLower = if c.toNat ≥ 65 ∧ c.toNat ≤ 90 then Char.ofNat (c.toNat + 32) else c := rfl

theorem eq_space_of_toLower_eq_space (c : Char) (h : c.toLower = ' ') : c = ' ' := by
  rw [toLower_ite] at h
  by_cases hc : c.toNat ≥ 65 ∧ c.toNat ≤ 90
  · exfalso
    rw [if_pos hc] at h
    obtain ⟨hc1, hc2⟩ := hc
    have hv : (c.toNat + 32).isValidChar := Or.inl (by omega)
    rw [Char.ofNat, dif_pos hv] at h
    have h32 : (Char.ofNatAux (c.toNat + 32) hv).toNat = c.toNat + 32 := rfl
    have hnat := congrArg Char.toNat h
    rw [h32] at hnat
    have hsp : (' ' : Char).toNat = 32 := rfl
    rw [hsp] at hnat
    omega
  · rw [if_neg hc] at h
    exact h

theorem afterFirstSpace_eq_drop (l : List Char)
    (h : ("bearer ".data).isPrefixOf (l.map Char.toLower) = true) :
    afterFirstSpace l = l.drop 7 := by
  rw [data_bearer_lower] at h
  rcases l with _ | ⟨c0, l⟩
  · simp [List.isPrefixOf] at h
  rcases l with _ | ⟨c1, l⟩
  · simp [List.isPrefixOf] at h
  rcases l with _ | ⟨c2, l⟩
  · simp [List.isPrefixOf] at h
  rcases l with _ | ⟨c3, l⟩
  · simp [List.isPrefixOf] at h
  rcases l with _ | ⟨c4, l⟩
  · simp [List.isPrefixOf] at h
  rcases l with _ | ⟨c5, l⟩
  · simp [List.isPrefixOf] at h
  rcases l with _ | ⟨c6, l⟩
  · simp [List.isPrefixOf] at h
  simp only [List.map_cons, List.isPrefixOf, Bool.and_eq_true, beq_iff_eq,
    List.isPrefixOf_nil_left, and_true] at h
  obtain ⟨h0, h1, h2, h3, h4, h5, h6⟩ := h
  have n0 : c0 ≠ ' ' := by rintro rfl; exact absurd h0.symm (by decide)
  have n1 : c1 ≠ ' ' := by rintro rfl; exact absurd h1.symm (by decide)
  have n2 : c2 ≠ ' ' := by rintro rfl; exact absurd h2.symm (by decide)
  have n3 : c3 ≠ ' ' := by rintro rfl; exact absurd h3.symm (by decide)
  have n4 : c4 ≠ ' ' := by rintro rfl; exact absurd h4.symm (by decide)
  have n5 : c5 ≠ ' ' := by rintro rfl; exact absurd h5.symm (by decide)
  have e6 : c6 = ' ' := eq_space_of_toLower_eq_space c6 h6.symm
  simp [afterFirstSpace, n0, n1, n2, n3, n4, n5, e6]

/-! ### Specification-side validator (for the refinement claim C7) -/

/-- Validator as §4.3 of the specification words it: the header must be
present, its scheme prefix must match the literal form `Bearer ` with the
scheme case-insensitive and a single space separator, and the remainder of
the header (the characters after that seven-character prefix), trimmed of
surrounding whitespace, must be a current key of the session table; in
every other case the result is false. -/
def is_valid_spec (sessions : Sessions) (authorization : Option String) : Bool :=
  match authorization with
  | none => false
  | some a =>
    pyStartsWith (pyLower a) "bearer " &&
    dictMem sessions ⟨pyStrip (a.data.drop 7)⟩

/-! ### Preservation of the no-duplicates invariant -/

theorem nodupStore_dictSet (d : Store) (k : String) (v : Activity)
    (hd : NodupStore d) (hv : v.participants.Nodup) : NodupStore (dictSet d k v) := by
  induction d with
  | nil =>
      intro p hp
      simp only [dictSet, List.mem_singleton] at hp
      subst hp
      exact hv
  | cons q d ih =>
      intro p hp
      by_cases hq : q.1 = k
      · rw [dictSet, if_pos (by simp [hq])] at hp
        rcases List.mem_cons.1 hp with h | h
        · subst h; exact hv
        · exact hd p (List.mem_cons_of_mem _ h)
      · rw [dictSet, if_neg (by simp [hq])] at hp
        rcases List.mem_cons.1 hp with h | h
        · subst h; exact hd p (List.mem_cons_self _ _)
        · exact ih (fun r hr => hd r (List.mem_cons_of_mem _ hr)) p h

theorem nodup_of_dictGet? (d : Store) (k : String) (act : Activity)
    (hd : NodupStore d) (h : dictGet? d k = some act) : act.participants.Nodup :=
  hd (k, act) (mem_of_dictGet?_eq_some d k act h)

theorem nodupStore_applyOp (sessions : Sessions) (store : Store) (op : Op)
    (h : NodupStore store) : NodupStore (applyOp sessions store op) := by
  cases op with
  | signup n e a =>
      show NodupStore (signup_for_activity store sessions n e a).2
      unfold signup_for_activity
      cases hget : dictGet? store n with
      | none => exact h
      | some act =>
          by_cases hauth : check_admin_token sessions a = true
          · by_cases hmem : e ∈ act.participants
            · simp only [hauth, not_true_eq_false, if_false, if_pos hmem]
              exact h
            · simp only [hauth, not_true_eq_false, if_false, if_neg hmem]
              refine nodupStore_dictSet store n _ h ?_
              have hnd := nodup_of_dictGet? store n act h hget
              simp [List.nodup_append, hnd, hmem]
          · simp only [Bool.not_eq_true] at hauth
            simp only [hauth, Bool.false_eq_true, not_false_eq_true, if_true]
            exact h
  | unregister n e a =>
      show NodupStore (unregister_from_activity store sessions n e a).2
      unfold unregister_from_activity
      cases hget : dictGet? store n with
      | none => exact h
      | some act =>
          by_cases hauth : check_admin_token sessions a = true
          · by_cases hmem : e ∈ act.participants
            · simp only [hauth, not_true_eq_false, if_false, hmem, not_true_eq_false]
              refine nodupStore_dictSet store n _ h ?_
              exact (nodup_of_dictGet? store n act h hget).erase e
            · simp only [hauth, not_true_eq_false, if_false, hmem, not_false_eq_true, if_true]
              exact h
          · simp only [Bool.not_eq_true] at hauth
            simp only [hauth, Bool.false_eq_true, not_false_eq_true, if_true]
            exact h

theorem nodupStore_applyOps (sessions : Sessions) (ops : List Op) (store : Store)
    (h : NodupStore store) : NodupStore (applyOps sessions ops store) := by
  induction ops generalizing store with
  | nil => exact h
  | cons op ops ih => exact ih _ (nodupStore_applyOp sessions store op h)

/-! ### Claims -/

/-- Claim C1: for every store containing the named activity, every email not
currently in that activity's participants, and every request whose session
token is valid, signup succeeds and the activity's participant list becomes
the old list with the email appended at the end. No hypothesis relates the
current participant count to `max_participants`, so the theorem applies
even when the list already holds `max_participants` or more entries (the
witness instantiates it on an over-full activity). -/
theorem c1_signup_appends (store : Store) (sessions : Sessions)
    (name email : String) (auth : Option String) (act : Activity)
    (hact : dictGet? store name = some act)
    (hauth : check_admin_token sessions auth = true)
    (hmem : email ∉ act.participants) :
    signup_for_activity store sessions name email auth =
      (.ok ("Signed up " ++ email ++ " for " ++ name),
       dictSet store name { act with participants := act.participants ++ [email] }) ∧
    dictGet? (signup_for_activity store sessions name email auth).2 name =
      some { act with participants := act.participants ++ [email] } := by
  have h : signup_for_activity store sessions name email auth =
      (.ok ("Signed up " ++ email ++ " for " ++ name),
       dictSet store name { act with participants := act.participants ++ [email] }) := by
    unfold signup_for_activity
    rw [hact]
    simp only [hauth, not_true_eq_false, if_false, if_neg hmem]
  exact ⟨h, by rw [h]; exact dictGet?_dictSet_self store name _⟩

/-- Witness for C1: a concrete store whose only activity already has more
participants (2) than its `max_participants` (1); signup still succeeds and
appends at the end. -/
theorem c1_signup_appends_witness :
    signup_for_activity
        [("Chess Club", ⟨"d", "s", 1, ["a@x", "b@x"]⟩)] [("tok", "t1")]
        "Chess Club" "c@x" (some "Bearer tok") =
      (.ok "Signed up c@x for Chess Club",
       [("Chess Club", ⟨"d", "s", 1, ["a@x", "b@x", "c@x"]⟩)]) ∧
    (2 : Nat) ≥ 1 := by
  have h := (c1_signup_appends
      [("Chess Club", ⟨"d", "s", 1, ["a@x", "b@x"]⟩)] [("tok", "t1")]
      "Chess Club" "c@x" (some "Bearer tok") ⟨"d", "s", 1, ["a@x", "b@x"]⟩
      (by decide) (by decide) (by decide)).1
  exact ⟨h, by decide⟩

/-- Claim C8: with the activity present and a valid session token, a signup
for an email already among the participants fails with Conflict (400) and
leaves the store unchanged; a successful signup of a fresh email leaves it
present exactly once, and the identical second signup is rejected with 400
and the store unchanged. -/
theorem c8_signup_conflict (store : Store) (sessions : Sessions)
    (name email : String) (auth : Option String) (act : Activity)
    (hact : dictGet? store name = some act)
    (hauth : check_admin_token sessions auth = true) :
    (email ∈ act.participants →
       signup_for_activity store sessions name email auth =
         (.error 400 "Student is already signed up", store)) ∧
    (email ∉ act.participants →
       ∃ store',
         signup_for_activity store sessions name email auth =
           (.ok ("Signed up " ++ email ++ " for " ++ name), store') ∧
         dictGet? store' name =
           some { act with participants := act.participants ++ [email] } ∧
         (act.participants ++ [email]).count email = 1 ∧
         signup_for_activity store' sessions name email auth =
           (.error 400 "Student is already signed up", store')) := by
  constructor
  · intro hmem
    unfold signup_for_activity
    rw [hact]
    simp only [hauth, not_true_eq_false, if_false, if_pos hmem]
  · intro hmem
    refine ⟨dictSet store name { act with participants := act.participants ++ [email] },
      ?_, dictGet?_dictSet_self store name _, ?_, ?_⟩
    · unfold signup_for_activity
      rw [hact]
      simp only [hauth, not_true_eq_false, if_false, if_neg hmem]
    · rw [List.count_append, List.count_eq_zero.2 hmem]
      simp
    · unfold signup_for_activity
      rw [dictGet?_dictSet_self store name _]
      simp only [hauth, not_true_eq_false, if_false,
        if_pos (show email ∈ act.participants ++ [email] by simp)]

/-- Witness for C8: a fresh signup to the seeded Chess Club succeeds and a
second identical signup returns Conflict 400. -/
theorem c8_signup_conflict_witness :
    ∃ store',
      signup_for_activity activities [("tok", "t1")]
          "Chess Club" "new@mergington.edu" (some "Bearer tok") =
        (.ok "Signed up new@mergington.edu for Chess Club", store') ∧
      dictGet? store' "Chess Club" =
        some { description := "Learn strategies and compete in chess tournaments",
               schedule := "Fridays, 3:30 PM - 5:00 PM",
               max_participants := 12,
               participants := ["michael@mergington.edu", "daniel@mergington.edu",
                                "new@mergington.edu"] } ∧
      (["michael@mergington.edu", "daniel@mergington.edu",
        "new@mergington.edu"] : List String).count "new@mergington.edu" = 1 ∧
      signup_for_activity store' [("tok", "t1")]
          "Chess Club" "new@mergington.edu" (some "Bearer tok") =
        (.error 400 "Student is already signed up", store') :=
  (c8_signup_conflict activities [("tok", "t1")] "Chess Club" "new@mergington.edu"
    (some "Bearer tok")
    { description := "Learn strategies and compete in chess tournaments",
      schedule := "Fridays, 3:30 PM - 5:00 PM",
      max_participants := 12,
      participants := ["michael@mergington.edu", "daniel@mergington.edu"] }
    (by decide) (by decide)).2 (by decide)

/-- Claim C2: with the activity present, a valid session token, and the email
occurring at most once (the store invariant), unregister of a present email
succeeds and removes exactly the first occurrence (`List.erase`), its count
dropping by one, after which the email is absent and a second unregister of
the same pair fails with Conflict (400) leaving the store unchanged;
unregister of an absent email fails with Conflict (400) and leaves the
store unchanged. -/
theorem c2_unregister_removes (store : Store) (sessions : Sessions)
    (name email : String) (auth : Option String) (act : Activity)
    (hact : dictGet? store name = some act)
    (hauth : check_admin_token sessions auth = true)
    (hcount : act.participants.count email ≤ 1) :
    (email ∉ act.participants →
       unregister_from_activity store sessions name email auth =
         (.error 400 "Student is not signed up for this activity", store)) ∧
    (email ∈ act.participants →
       ∃ store',
         unregister_from_activity store sessions name email auth =
           (.ok ("Unregistered " ++ email ++ " from " ++ name), store') ∧
         dictGet? store' name =
           some { act with participants := act.participants.erase email } ∧
         (act.participants.erase email).count email =
           act.participants.count email - 1 ∧
         email ∉ act.participants.erase email ∧
         unregister_from_activity store' sessions name email auth =
           (.error 400 "Student is not signed up for this activity", store')) := by
  constructor
  · intro hmem
    unfold unregister_from_activity
    rw [hact]
    simp only [hauth, not_true_eq_false, if_false, if_pos hmem]
  · intro hmem
    have hgone : email ∉ act.participants.erase email := by
      have h1 : act.participants.count email = 1 :=
        Nat.le_antisymm hcount (List.count_pos_iff.2 hmem)
      have h0 : (act.participants.erase email).count email = 0 := by
        rw [List.count_erase_self, h1]
      exact List.count_eq_zero.1 h0
    refine ⟨dictSet store name { act with participants := act.participants.erase email },
      ?_, dictGet?_dictSet_self store name _, by rw [List.count_erase_self], hgone, ?_⟩
    · unfold unregister_from_activity
      rw [hact]
      simp only [hauth, not_true_eq_false, if_false, hmem, not_true_eq_false, if_false]
    · unfold unregister_from_activity
      rw [dictGet?_dictSet_self store name _]
      simp only [hauth, not_true_eq_false, if_false, hgone, not_false_eq_true, if_true]

/-- Witness for C2: unregistering a seeded Chess Club participant removes it,
and repeating the unregister returns Conflict 400. -/
theorem c2_unregister_removes_witness :
    ∃ store',
      unregister_from_activity activities [("tok", "t1")]
          "Chess Club" "michael@mergington.edu" (some "Bearer tok") =
        (.ok "Unregistered michael@mergington.edu from Chess Club", store') ∧
      dictGet? store' "Chess Club" =
        some { description := "Learn strategies and compete in chess tournaments",
               schedule := "Fridays, 3:30 PM - 5:00 PM",
               max_participants := 12,
               participants := ["daniel@mergington.edu"] } ∧
      (["daniel@mergington.edu"] : List String).count "michael@mergington.edu" =
        (["michael@mergington.edu", "daniel@mergington.edu"] : List String).count
          "michael@mergington.edu" - 1 ∧
      "michael@mergington.edu" ∉ (["daniel@mergington.edu"] : List String) ∧
      unregister_from_activity store' [("tok", "t1")]
          "Chess Club" "michael@mergington.edu" (some "Bearer tok") =
        (.error 400 "Student is not signed up for this activity", store') :=
  (c2_unregister_removes activities [("tok", "t1")] "Chess Club"
    "michael@mergington.edu" (some "Bearer tok")
    { description := "Learn strategies and compete in chess tournaments",
      schedule := "Fridays, 3:30 PM - 5:00 PM",
      max_participants := 12,
      participants := ["michael@mergington.edu", "daniel@mergington.edu"] }
    (by decide) (by decide) (by decide)).2 (by decide)

/-- Claim C3: a signup or unregister naming an activity absent from the store
fails with NotFound (404) whatever the Authorization header is — the
existence check runs before the authentication check — while for an
existing activity an invalid or missing token yields Forbidden (403), in
both cases leaving the store unchanged. -/
theorem c3_notfound_before_auth (store : Store) (sessions : Sessions)
    (name email : String) (auth : Option String) :
    (dictGet? store name = none →
       signup_for_activity store sessions name email auth =
         (.error 404 "Activity not found", store) ∧
       unregister_from_activity store sessions name email auth =
         (.error 404 "Activity not found", store)) ∧
    (∀ act, dictGet? store name = some act →
       check_admin_token sessions auth = false →
       signup_for_activity store sessions name email auth =
         (.error 403 "Admin credentials required to sign up students", store) ∧
       unregister_from_activity store sessions name email auth =
         (.error 403 "Admin credentials required to unregister students", store)) := by
  constructor
  · intro habs
    constructor
    · unfold signup_for_activity
      rw [habs]
    · unfold unregister_from_activity
      rw [habs]
  · intro act hact hbad
    constructor
    · unfold signup_for_activity
      rw [hact]
      simp only [hbad, Bool.false_eq_true, not_false_eq_true, if_true]
    · unfold unregister_from_activity
      rw [hact]
      simp only [hbad, Bool.false_eq_true, not_false_eq_true, if_true]

/-- Witness for C3: signup and unregister to the nonexistent "Knitting Club"
return 404 even with a valid token, while signup to the existing Chess Club
with no Authorization header returns 403. -/
theorem c3_notfound_before_auth_witness :
    (signup_for_activity activities [("tok", "t1")] "Knitting Club"
        "x@mergington.edu" (some "Bearer tok") =
      (.error 404 "Activity not found", activities) ∧
     unregister_from_activity activities [("tok", "t1")] "Knitting Club"
        "x@mergington.edu" (some "Bearer tok") =
      (.error 404 "Activity not found", activities)) ∧
    signup_for_activity activities [("tok", "t1")] "Chess Club"
        "x@mergington.edu" none =
      (.error 403 "Admin credentials required to sign up students", activities) :=
  ⟨(c3_notfound_before_auth activities [("tok", "t1")] "Knitting Club"
      "x@mergington.edu" (some "Bearer tok")).1 (by decide),
   ((c3_notfound_before_auth activities [("tok", "t1")] "Chess Club"
      "x@mergington.edu" none).2
     { description := "Learn strategies and compete in chess tournaments",
       schedule := "Fridays, 3:30 PM - 5:00 PM",
       max_participants := 12,
       participants := ["michael@mergington.edu", "daniel@mergington.edu"] }
     (by decide) (by decide)).1⟩

/-- Claim C4: login linearly scans the credential list and succeeds exactly
when some entry matches both fields by string equality: on a match the
minted token is returned and mapped to the requested username (which, by
the exact-match condition, is the first matching entry's username — second
conjunct); on no match the result is Unauthorized (401), no token is
returned, and the session table is unchanged. -/
theorem c4_admin_login (teachers : List Credential) (sessions : Sessions)
    (username password freshToken : String) :
    ((∃ t ∈ teachers, t.username = username ∧ t.password = password) →
       admin_login teachers sessions username password freshToken =
         (.ok freshToken, dictSet sessions freshToken username)) ∧
    (∀ t₀, teachers.find?
        (fun t => t.username == username && t.password == password) = some t₀ →
       t₀.username = username ∧ t₀.password = password) ∧
    ((∀ t ∈ teachers, ¬(t.username = username ∧ t.password = password)) →
       admin_login teachers sessions username password freshToken =
         (.error 401 "Invalid username or password", sessions)) := by
  refine ⟨?_, ?_, ?_⟩
  · rintro ⟨t, ht, hu, hp⟩
    cases hfind : teachers.find?
        (fun t => t.username == username && t.password == password) with
    | none =>
        exfalso
        exact absurd (by simp [hu, hp] :
            (fun t : Credential => t.username == username && t.password == password) t = true)
          (by simpa using List.find?_eq_none.1 hfind t ht)
    | some t' =>
        unfold admin_login
        rw [hfind]
        rfl
  · intro t₀ hfind
    have := List.find?_some hfind
    simpa using this
  · intro hno
    have hfind : teachers.find?
        (fun t => t.username == username && t.password == password) = none := by
      rw [List.find?_eq_none]
      intro t ht
      simpa using hno t ht
    unfold admin_login
    rw [hfind]

/-- Witness for C4: the matching pair ("teacher1", "secret") logs in and the
fresh token is mapped to "teacher1"; a wrong password yields 401 with the
session table left unchanged. -/
theorem c4_admin_login_witness :
    admin_login [⟨"teacher1", "secret"⟩] [] "teacher1" "secret" "ab12" =
      (.ok "ab12", [("ab12", "teacher1")]) ∧
    admin_login [⟨"teacher1", "secret"⟩] [] "teacher1" "wrong" "ab12" =
      (.error 401 "Invalid username or password", []) :=
  ⟨(c4_admin_login [⟨"teacher1", "secret"⟩] [] "teacher1" "secret" "ab12").1
      ⟨⟨"teacher1", "secret"⟩, by decide, by decide, by decide⟩,
   (c4_admin_login [⟨"teacher1", "secret"⟩] [] "teacher1" "wrong" "ab12").2.2
      (by decide)⟩

/-- Claim C5: after a successful login that minted the token `freshToken`
(a uuid hex string, hence with no surrounding whitespace, which is the
`pyStrip` hypothesis), validating the header `"Bearer " ++ freshToken`
against the resulting session table returns true. -/
theorem c5_login_token_roundtrip (teachers : List Credential) (sessions : Sessions)
    (username password freshToken : String) (t : Credential)
    (ht : t ∈ teachers) (hu : t.username = username) (hp : t.password = password)
    (htok : pyStrip freshToken.data = freshToken.data) :
    check_admin_token (admin_login teachers sessions username password freshToken).2
      (some ("Bearer " ++ freshToken)) = true := by
  have hlogin : (admin_login teachers sessions username password freshToken).2 =
      dictSet sessions freshToken username := by
    cases hfind : teachers.find?
        (fun t => t.username == username && t.password == password) with
    | none =>
        exfalso
        exact absurd (by simp [hu, hp] :
            (fun t : Credential => t.username == username && t.password == password) t = true)
          (by simpa using List.find?_eq_none.1 hfind t ht)
    | some t' =>
        unfold admin_login
        rw [hfind]
        rfl
  rw [hlogin]
  clear hlogin
  have hempty : ("Bearer " ++ freshToken).data.isEmpty = false := by
    rw [String.data_append, data_bearer]
    rfl
  have htoken : extractToken ("Bearer " ++ freshToken) = freshToken := by
    unfold extractToken
    rw [String.data_append, afterFirstSpace_bearer, htok]
  show (if ("Bearer " ++ freshToken).data.isEmpty = true then false
    else if ¬ pyStartsWith (pyLower ("Bearer " ++ freshToken)) "bearer " = true then false
    else dictMem (dictSet sessions freshToken username)
      (extractToken ("Bearer " ++ freshToken))) = true
  rw [if_neg (by simp [hempty]),
    if_neg (by simp [pyStartsWith_lower_bearer_append freshToken]), htoken]
  unfold dictMem
  rw [dictGet?_dictSet_self]
  rfl

/-- Witness for C5: logging in as teacher1 with fresh token "ab12" makes the
header "Bearer ab12" validate. -/
theorem c5_login_token_roundtrip_witness :
    check_admin_token
      (admin_login [⟨"teacher1", "secret"⟩] [] "teacher1" "secret" "ab12").2
      (some ("Bearer " ++ "ab12")) = true :=
  c5_login_token_roundtrip [⟨"teacher1", "secret"⟩] [] "teacher1" "secret" "ab12"
    ⟨"teacher1", "secret"⟩ (by decide) (by decide) (by decide) (by decide)

theorem data_not_empty_of_startsWith_bearer (a : String)
    (h : pyStartsWith (pyLower a) "bearer " = true) : a.data.isEmpty = false := by
  cases hd : a.data with
  | nil =>
      exfalso
      have h' : ("bearer ".data).isPrefixOf (a.data.map Char.toLower) = true := h
      rw [hd] at h'
      simp [data_bearer_lower, List.isPrefixOf] at h'
  | cons c l => simp [hd]

/-- Claim C6: for every session table (with the dictionary's unique-key
representation invariant) and every syntactically valid bearer header,
logout succeeds; afterwards the extracted token is absent from the table, a
second logout with the same header also succeeds and changes nothing, and
when the token was absent to begin with the call is a no-op rather than an
error. -/
theorem c6_logout_idempotent (sessions : Sessions) (a : String)
    (hkeys : (sessions.map Prod.fst).Nodup)
    (hsyn : pyStartsWith (pyLower a) "bearer " = true) :
    ∃ sessions',
      admin_logout sessions (some a) = (.ok "Logged out", sessions') ∧
      dictGet? sessions' (extractToken a) = none ∧
      admin_logout sessions' (some a) = (.ok "Logged out", sessions') ∧
      (dictGet? sessions (extractToken a) = none → sessions' = sessions) := by
  have hempty : a.data.isEmpty = false := data_not_empty_of_startsWith_bearer a hsyn
  refine ⟨dictPop sessions (extractToken a), ?_, ?_, ?_, ?_⟩
  · simp only [admin_logout, hempty, hsyn]
    simp [destroy_session]
  · exact dictGet?_dictPop_self sessions (extractToken a) hkeys
  · have h2 : dictPop (dictPop sessions (extractToken a)) (extractToken a) =
        dictPop sessions (extractToken a) :=
      dictPop_of_get_none _ _ (dictGet?_dictPop_self sessions (extractToken a) hkeys)
    simp only [admin_logout, hempty, hsyn]
    simp [destroy_session, h2]
  · intro h
    exact dictPop_of_get_none _ _ h

/-- Witness for C6: logging out the session table [("abc", "t1")] with header
"Bearer abc" succeeds, removes the token, and a repeat logout also
succeeds. -/
theorem c6_logout_idempotent_witness :
    ∃ sessions',
      admin_logout [("abc", "t1")] (some "Bearer abc") =
        (.ok "Logged out", sessions') ∧
      dictGet? sessions' (extractToken "Bearer abc") = none ∧
      admin_logout sessions' (some "Bearer abc") = (.ok "Logged out", sessions') ∧
      (dictGet? [("abc", "t1")] (extractToken "Bearer abc") = none →
        sessions' = [("abc", "t1")]) :=
  c6_logout_idempotent [("abc", "t1")] "Bearer abc" (by decide) (by decide)

/-- Claim C7: the token validator equals the validator the specification
describes: true exactly when the header is present, its prefix matches the
bearer scheme case-insensitively with the single space separator, and the
remainder of the header trimmed of surrounding whitespace is a current key
of the session table; false in every other case. -/
theorem c7_check_admin_token_eq_spec (sessions : Sessions) (auth : Option String) :
    check_admin_token sessions auth = is_valid_spec sessions auth := by
  cases auth with
  | none => rfl
  | some a =>
    simp only [check_admin_token, is_valid_spec]
    by_cases hsw : pyStartsWith (pyLower a) "bearer " = true
    · have hempty : a.data.isEmpty = false := data_not_empty_of_startsWith_bearer a hsw
      rw [if_neg (by simp [hempty]), if_neg (by simp [hsw]), hsw, Bool.true_and]
      have hd : afterFirstSpace a.data = a.data.drop 7 :=
        afterFirstSpace_eq_drop a.data hsw
      unfold extractToken
      rw [hd]
    · have hsw' : pyStartsWith (pyLower a) "bearer " = false := by
        simpa using hsw
      rw [hsw', Bool.false_and]
      by_cases hempty : a.data.isEmpty = true
      · rw [if_pos hempty]
      · rw [if_neg hempty, if_pos (by simp [hsw'])]

/-- Claim C9: every store reachable from the seeded initial database by any
sequence of sequentially executed signup and unregister requests keeps
every email at most once in any activity's participant list. -/
theorem c9_reachable_nodup (sessions : Sessions) (ops : List Op) :
    NodupStore (applyOps sessions ops activities) :=
  nodupStore_applyOps sessions ops activities (by decide)

/-- Claim C10: a logout whose header is the bearer scheme followed only by
whitespace ("Bearer " or "Bearer   "), so that the extracted token trims to
the empty string, passes the syntax check and returns success "Logged out"
instead of a 400, and leaves a session table that has no entry for the
empty string unchanged. -/
theorem c10_logout_blank_token (sessions : Sessions)
    (hk : dictGet? sessions "" = none) :
    admin_logout sessions (some "Bearer ") = (.ok "Logged out", sessions) ∧
    admin_logout sessions (some "Bearer   ") = (.ok "Logged out", sessions) := by
  constructor
  · simp only [admin_logout]
    rw [if_neg (by decide)]
    rw [show extractToken "Bearer " = "" from rfl]
    simp [destroy_session, dictPop_of_get_none sessions "" hk]
  · simp only [admin_logout]
    rw [if_neg (by decide)]
    rw [show extractToken "Bearer   " = "" from rfl]
    simp [destroy_session, dictPop_of_get_none sessions "" hk]

/-- Witness for C10: with session table [("abc", "t1")], both whitespace-only
bearer headers log out successfully and leave the table unchanged. -/
theorem c10_logout_blank_token_witness :
    admin_logout [("abc", "t1")] (some "Bearer ") =
      (.ok "Logged out", [("abc", "t1")]) ∧
    admin_logout [("abc", "t1")] (some "Bearer   ") =
      (.ok "Logged out", [("abc", "t1")]) :=
  c10_logout_blank_token [("abc", "t1")] (by decide)

end Mergington
